import Mathlib

/-!
Shallow embedding of the Choose-Paper repository (`review_agent.py` and
`server.py`) together with theorems about its ingestion, templating and
front-end logic.

External effects are passed in as explicit parameters:
* the HTTP layer as a function `Fetch` from a URL and a timeout to a response,
* the PDF library (`pypdf.PdfReader` plus `page.extract_text()`) as a
  function `PdfParse` from raw bytes to either a parse failure or the list of
  per-page extraction results (`none` models a page whose `extract_text()`
  returned `None`),
* the filesystem as a partial map from paths to raw bytes,
* standard input as a string,
* the chat-completion client as a function from the message list to the
  completion object.

Python string operations used by the code (`lower`, `strip`, `startswith`,
`endswith`, `in`, `str.format`, `"\n".join`) are modelled over `List Char`
so that every definition evaluates inside the kernel.  Bytes are modelled
as `Nat` (values ≥ 256 never form valid UTF-8 and are rejected like any
other invalid byte).
-/

namespace ChoosePaper

/-- Boolean test that `pat` occurs at the beginning of `l`
(models Python `str.startswith`). -/
def listStarts : List Char → List Char → Bool
  | [], _ => true
  | _ :: _, [] => false
  | a :: as, b :: bs => a == b && listStarts as bs

/-- Boolean test that `pat` occurs somewhere inside `l`
(models Python `pat in s`). -/
def listHasSub (pat : List Char) : List Char → Bool
  | [] => listStarts pat []
  | c :: t => listStarts pat (c :: t) || listHasSub pat t

/-- Models Python `s.startswith(pat)`. -/
def pyStartsWith (s pat : String) : Bool := listStarts pat.data s.data

/-- Models Python `s.endswith(pat)`. -/
def pyEndsWith (s pat : String) : Bool := listStarts pat.data.reverse s.data.reverse

/-- Models Python `pat in s` (substring containment). -/
def strContains (s pat : String) : Bool := listHasSub pat.data s.data

/-- Models Python `s.lower()` (ASCII case folding; the repository only ever
compares against ASCII constants such as `"zh"`, `".pdf"` and `"pdf"`). -/
def pyLower (s : String) : String := String.mk (s.data.map Char.toLower)

/-- The ASCII whitespace characters stripped by Python `str.strip()`. -/
def isPySpace (c : Char) : Bool :=
  c == ' ' || c == '\t' || c == '\n' || c == '\r' || c == '\x0b' || c == '\x0c'

/-- Models Python `s.strip()` (strip leading and trailing whitespace). -/
def pyStrip (s : String) : String :=
  String.mk (((s.data.dropWhile isPySpace).reverse.dropWhile isPySpace).reverse)

/-- Truthiness of a Python string: non-empty. -/
def pyTruthyStr (s : String) : Bool := !s.data.isEmpty

/-- Truthiness of an optional Python string field (`None` and `""` are falsy). -/
def pyTruthyOpt : Option String → Bool
  | none => false
  | some s => pyTruthyStr s

/-- Number of newline characters in a string. -/
def countNl (s : String) : Nat := s.data.count '\n'

/-- Models Python `"\n".join(pages)`. -/
def joinWithNewlines : List String → String
  | [] => ""
  | [s] => s
  | s :: t :: rest => s ++ ("\n" ++ joinWithNewlines (t :: rest))

/-- Universal-newline translation performed by CPython text-mode reading
(`open(path, "r")` and `sys.stdin`): `"\r\n"` and a lone `"\r"` both become
`"\n"`. -/
def univNewlines : List Char → List Char
  | [] => []
  | '\r' :: '\n' :: rest => '\n' :: univNewlines rest
  | '\r' :: rest => '\n' :: univNewlines rest
  | c :: rest => c :: univNewlines rest

/-! ### UTF-8 decoding

`utf8Decode?` models the strict decoder used by
`open(path, "r", encoding="utf-8")` / `bytes.decode("utf-8")`, returning
`none` on any ill-formed input (overlong forms, surrogates and values above
`U+10FFFF` are rejected, as in CPython).  `utf8DecodeIgnoreChars` models
`bytes.decode("utf-8", errors="ignore")`: it is total and drops each
maximal ill-formed subpart, resuming at the first byte that does not extend
the current sequence. -/

/-- Valid UTF-8 continuation byte. -/
def contOk (b : Nat) : Bool := 0x80 ≤ b && b ≤ 0xBF

/-- Valid lead byte of a two-byte sequence (0xC0/0xC1 would be overlong). -/
def isLead2 (b : Nat) : Bool := 0xC2 ≤ b && b ≤ 0xDF

/-- Lead byte of a three-byte sequence. -/
def isLead3 (b : Nat) : Bool := 0xE0 ≤ b && b ≤ 0xEF

/-- Lead byte of a four-byte sequence (0xF5..0xFF would exceed U+10FFFF). -/
def isLead4 (b : Nat) : Bool := 0xF0 ≤ b && b ≤ 0xF4

/-- Constraint on the first continuation byte of a three-byte sequence
(rules out overlong forms after 0xE0 and surrogates after 0xED). -/
def cont3Ok (b b2 : Nat) : Bool :=
  if b == 0xE0 then 0xA0 ≤ b2 && b2 ≤ 0xBF
  else if b == 0xED then 0x80 ≤ b2 && b2 ≤ 0x9F
  else contOk b2

/-- Constraint on the first continuation byte of a four-byte sequence
(rules out overlong forms after 0xF0 and values above U+10FFFF after 0xF4). -/
def cont4Ok (b b2 : Nat) : Bool :=
  if b == 0xF0 then 0x90 ≤ b2 && b2 ≤ 0xBF
  else if b == 0xF4 then 0x80 ≤ b2 && b2 ≤ 0x8F
  else contOk b2

/-- Code point of a two-byte sequence. -/
def cp2 (b b2 : Nat) : Nat := (b - 0xC0) * 0x40 + (b2 - 0x80)

/-- Code point of a three-byte sequence. -/
def cp3 (b b2 b3 : Nat) : Nat := (b - 0xE0) * 0x1000 + (b2 - 0x80) * 0x40 + (b3 - 0x80)

/-- Code point of a four-byte sequence. -/
def cp4 (b b2 b3 b4 : Nat) : Nat :=
  (b - 0xF0) * 0x40000 + (b2 - 0x80) * 0x1000 + (b3 - 0x80) * 0x40 + (b4 - 0x80)

/-- Strict UTF-8 decoding to characters; `none` on ill-formed input. -/
def utf8DecodeChars : List Nat → Option (List Char)
  | [] => some []
  | b :: rest =>
    if b < 0x80 then
      (utf8DecodeChars rest).map (fun cs => Char.ofNat b :: cs)
    else if isLead2 b then
      match rest with
      | [] => none
      | b2 :: rest2 =>
        if contOk b2 then (utf8DecodeChars rest2).map (fun cs => Char.ofNat (cp2 b b2) :: cs)
        else none
    else if isLead3 b then
      match rest with
      | [] => none
      | b2 :: rest2 =>
        if cont3Ok b b2 then
          match rest2 with
          | [] => none
          | b3 :: rest3 =>
            if contOk b3 then
              (utf8DecodeChars rest3).map (fun cs => Char.ofNat (cp3 b b2 b3) :: cs)
            else none
        else none
    else if isLead4 b then
      match rest with
      | [] => none
      | b2 :: rest2 =>
        if cont4Ok b b2 then
          match rest2 with
          | [] => none
          | b3 :: rest3 =>
            if contOk b3 then
              match rest3 with
              | [] => none
              | b4 :: rest4 =>
                if contOk b4 then
                  (utf8DecodeChars rest4).map (fun cs => Char.ofNat (cp4 b b2 b3 b4) :: cs)
                else none
            else none
        else none
    else none

/-- Strict UTF-8 decoding of a byte sequence (models `bytes.decode("utf-8")`).
Returns the decoded characters, or `none` when the bytes are not valid UTF-8. -/
def utf8Decode? (bytes : List Nat) : Option (List Char) := utf8DecodeChars bytes

/-- Worker for the lenient decoder.  Every step consumes at least one byte, so
running it with `fuel = bytes.length` never exhausts the fuel; the fuel only
makes the recursion structural.  On an ill-formed sequence it skips the
maximal subpart read so far and resumes at the first byte that does not
extend the sequence, as the CPython codec does. -/
def utf8IgnoreGo : Nat → List Nat → List Char
  | _, [] => []
  | 0, _ :: _ => []
  | fuel + 1, b :: rest =>
    if b < 0x80 then Char.ofNat b :: utf8IgnoreGo fuel rest
    else if isLead2 b then
      match rest with
      | [] => []
      | b2 :: rest2 =>
        if contOk b2 then Char.ofNat (cp2 b b2) :: utf8IgnoreGo fuel rest2
        else utf8IgnoreGo fuel rest
    else if isLead3 b then
      match rest with
      | [] => []
      | b2 :: rest2 =>
        if cont3Ok b b2 then
          match rest2 with
          | [] => []
          | b3 :: rest3 =>
            if contOk b3 then Char.ofNat (cp3 b b2 b3) :: utf8IgnoreGo fuel rest3
            else utf8IgnoreGo fuel rest2
        else utf8IgnoreGo fuel rest
    else if isLead4 b then
      match rest with
      | [] => []
      | b2 :: rest2 =>
        if cont4Ok b b2 then
          match rest2 with
          | [] => []
          | b3 :: rest3 =>
            if contOk b3 then
              match rest3 with
              | [] => []
              | b4 :: rest4 =>
                if contOk b4 then Char.ofNat (cp4 b b2 b3 b4) :: utf8IgnoreGo fuel rest4
                else utf8IgnoreGo fuel rest3
            else utf8IgnoreGo fuel rest2
        else utf8IgnoreGo fuel rest
    else utf8IgnoreGo fuel rest

/-- Lenient UTF-8 decoding (models `bytes.decode("utf-8", errors="ignore")`):
total, skipping each maximal ill-formed subpart. -/
def utf8DecodeIgnoreChars (bytes : List Nat) : List Char :=
  utf8IgnoreGo bytes.length bytes

/-! ### URL parsing (`urllib.parse`) -/

/-- Characters allowed in a URL scheme after the leading letter. -/
def isSchemeChar (c : Char) : Bool := c.isAlpha || c.isDigit || c == '+' || c == '-' || c == '.'

/-- Models `urllib.parse.urlparse(s).scheme`: the text before the first `':'`,
lowercased, provided it is non-empty, starts with an ASCII letter and consists
of scheme characters; otherwise the empty string. -/
def urlScheme (s : String) : String :=
  let pre := s.data.takeWhile (fun c => c != ':')
  if pre.length < s.data.length && !pre.isEmpty && pre.all isSchemeChar &&
      (pre.headD '0').isAlpha then
    String.mk (pre.map Char.toLower)
  else ""

/-- Models `urllib.parse.urlparse(s).path`: strip the scheme (when present),
then the `//netloc` part (when present), then drop the fragment (after the
first `'#'`) and the query (after the first `'?'`). -/
def urlPath (s : String) : String :=
  let rest := if urlScheme s = "" then s.data else (s.data.dropWhile (fun c => c != ':')).drop 1
  let rest2 :=
    if rest.take 2 = ['/', '/'] then
      (rest.drop 2).dropWhile (fun c => c != '/' && c != '?' && c != '#')
    else rest
  String.mk ((rest2.takeWhile (fun c => c != '#')).takeWhile (fun c => c != '?'))

/-! ### External-effect interfaces -/

/-- The relevant parts of a `requests` response: the (final) status code, the
value of the case-insensitively looked-up `content-type` header (`""` when the
header is absent, mirroring `resp.headers.get("content-type", "")`), the raw
body bytes (`resp.content`) and the decoded body (`resp.text`).  Transport
failures of `requests.get` itself are outside the model; the repository never
catches them. -/
structure HttpResponse where
  status : Nat
  contentType : String
  content : List Nat
  text : String

/-- The HTTP layer: a URL and a timeout (in seconds) give a response. -/
def Fetch : Type := String → Nat → HttpResponse

/-- The PDF library (`pypdf.PdfReader` plus `page.extract_text()` on every
page, in document order): raw bytes give either a parse failure or the list of
per-page extraction results.  A page whose `extract_text()` returned `None` is
`none`; a page with no visible text may also be `some ""`. -/
def PdfParse : Type := List Nat → Except Unit (List (Option String))

/-- The filesystem: a path gives the raw bytes of the file, or `none` when the
path cannot be opened. -/
def FileSystem : Type := String → Option (List Nat)

/-- Failures raised while resolving a paper source. -/
inductive ReadError
  | fetchError (status : Nat)
  | malformedPdf
  | ioError
  | unicodeDecodeError
deriving DecidableEq

/-! ### review_agent.py: Source Reader and PDF Extractor -/

/-- Embeds `read_pdf_bytes` / `_read_pdf_bytes`: parse the bytes as a PDF and
join the per-page texts (with `None` replaced by `""`, as `extract_text() or
""` does) with newline separators. -/
def read_pdf_bytes (parse : PdfParse) (data : List Nat) : Except ReadError String :=
  match parse data with
  | Except.error _ => Except.error ReadError.malformedPdf
  | Except.ok pages => Except.ok (joinWithNewlines (pages.map (fun p => p.getD "")))

/-- Embeds `_read_pdf`: read the file at `path` and extract its text exactly
as `read_pdf_bytes` does. -/
def readPdfPath (parse : PdfParse) (fs : FileSystem) (path : String) : Except ReadError String :=
  match fs path with
  | none => Except.error ReadError.ioError
  | some data => read_pdf_bytes parse data

/-- Embeds `_read_text_file`: `open(path, "r", encoding="utf-8").read()`.
The bytes are decoded strictly as UTF-8 (a decode failure raises), and CPython
text mode applies universal-newline translation to the decoded characters. -/
def readTextFile (fs : FileSystem) (path : String) : Except ReadError String :=
  match fs path with
  | none => Except.error ReadError.ioError
  | some bytes =>
    match utf8Decode? bytes with
    | none => Except.error ReadError.unicodeDecodeError
    | some cs => Except.ok (String.mk (univNewlines cs))

/-- Embeds `_read_from_url`: `requests.get(url, timeout=30)`, then
`raise_for_status()` (which, in the `requests` library, raises exactly on a
4xx or 5xx status code), then route on the lowered content-type header
containing `"pdf"` or the lowered URL string ending in `".pdf"`. -/
def readFromUrl (fetch : Fetch) (parse : PdfParse) (url : String) : Except ReadError String :=
  let resp := fetch url 30
  if 400 ≤ resp.status ∧ resp.status < 600 then
    Except.error (ReadError.fetchError resp.status)
  else if strContains (pyLower resp.contentType) "pdf" || pyEndsWith (pyLower url) ".pdf" then
    read_pdf_bytes parse resp.content
  else
    Except.ok resp.text

/-- Embeds `read_paper`: dispatch on the source string.  `"-"` reads stdin
(modelled as the already-decoded stream contents); an `http`/`https` scheme
fetches the URL; a name ending in `".pdf"` (case-insensitively) parses a local
PDF; anything else is read as a UTF-8 text file. -/
def read_paper (stdin : String) (fetch : Fetch) (parse : PdfParse) (fs : FileSystem)
    (source : String) : Except ReadError String :=
  if source = "-" then Except.ok stdin
  else if urlScheme source = "http" ∨ urlScheme source = "https" then
    readFromUrl fetch parse source
  else if pyEndsWith (pyLower source) ".pdf" then
    readPdfPath parse fs source
  else
    readTextFile fs source

/-! ### review_agent.py: Prompt Builder -/

/-- A chat message. -/
structure Message where
  role : String
  content : String
deriving DecidableEq

/-- The Chinese template before the `{domain}` placeholder. -/
def zhTemplateHead : String := "请用中文给出审稿意见，语气严格但公正，领域为"

/-- The Chinese template between the `{domain}` and `{paper}` placeholders. -/
def zhTemplateMid : String :=
  "。\n输出采用以下纯文本模板（不要使用 JSON，也不要用代码块）：\nSummary: ...\nStrengths:\n- ...\nWeaknesses:\n- ...\nQuestions:\n- ...\nDecision (阅读建议: 精读 / 可选浏览 / 可忽略): ...\n\n论文内容：\n"

/-- The English template before the `{domain}` placeholder. -/
def enTemplateHead : String := "Provide the review in English, with a strict but fair tone, domain: "

/-- The English template between the `{domain}` and `{paper}` placeholders. -/
def enTemplateMid : String :=
  ".\nUse this plain-text template (no JSON, no code fences):\nSummary: ...\nStrengths:\n- ...\nWeaknesses:\n- ...\nQuestions:\n- ...\nDecision (Reading suggestion: Must Read / Skim Optional / Skip): ...\n\nPAPER:\n"

/-- The Chinese template after `template.format(domain=..., paper=...)`:
`str.format` substitutes the two placeholders literally. -/
def zhTemplate (domain paper : String) : String :=
  zhTemplateHead ++ (domain ++ (zhTemplateMid ++ paper))

/-- The English template after `template.format(domain=..., paper=...)`. -/
def enTemplate (domain paper : String) : String :=
  enTemplateHead ++ (domain ++ (enTemplateMid ++ paper))

/-- The system-role message content (an f-string interpolating `domain` and
`tone`). -/
def systemMsg (domain tone : String) : String :=
  "You are a seasoned reviewer in " ++
    (domain ++ (". Maintain a strict, skeptical, concise tone: " ++
      (tone ++ ". Respond using the requested language.")))

/-- Embeds `build_messages`: select the template by
`language.lower().startswith("zh")` and return the `[system, user]` pair. -/
def build_messages (domain tone paper_text language : String) : List Message :=
  let lang := pyLower language
  let template :=
    if pyStartsWith lang "zh" then zhTemplate domain paper_text
    else enTemplate domain paper_text
  [⟨"system", systemMsg domain tone⟩, ⟨"user", template⟩]

/-! ### review_agent.py: Model Caller -/

/-- The message object of a completion choice; `content` is optional in the
API schema. -/
structure ChoiceMessage where
  content : Option String
deriving DecidableEq

/-- One completion choice. -/
structure Choice where
  message : ChoiceMessage
deriving DecidableEq

/-- A chat-completion response. -/
structure ChatCompletion where
  choices : List Choice
deriving DecidableEq

/-- The chat-completion API: the configured client, the model name, the
temperature and the messages give a response.  The temperature is forwarded
verbatim and never inspected by the repository, so it is left out of the
model. -/
def ChatApi : Type := String → List Message → ChatCompletion

/-- Failure of `response.choices[0]` when the list of choices is empty. -/
inductive CallError
  | indexError
deriving DecidableEq

/-- Embeds `call_model`: return `response.choices[0].message.content or ""`.
Indexing an empty `choices` list raises. -/
def call_model (api : ChatApi) (model : String) (messages : List Message) :
    Except CallError String :=
  match (api model messages).choices with
  | [] => Except.error CallError.indexError
  | c :: _ => Except.ok (c.message.content.getD "")

/-! ### review_agent.py: CLI front end (`main`) -/

/-- Fatal CLI outcomes before any model call. -/
inductive CliError
  | readError (e : ReadError)
  | emptyPaper
deriving DecidableEq

/-- What a successful CLI run produced: the stripped paper text, the messages
passed to the model, and the review text printed or saved. -/
structure CliOutcome where
  paper_text : String
  messages : List Message
  review : String
deriving DecidableEq

/-- Embeds the core of `main`: resolve the paper, strip it, abort with
`SystemExit` when the stripped text is empty, otherwise build the messages and
call the model.  The model call is abstracted into `callModel` (the
composition of `OpenAI(...)` and `call_model`); argument parsing, env-var
defaults and output writing do not affect these steps. -/
def mainFlow (stdin : String) (fetch : Fetch) (parse : PdfParse) (fs : FileSystem)
    (paper domain tone language : String) (callModel : List Message → String) :
    Except CliError CliOutcome :=
  match read_paper stdin fetch parse fs paper with
  | Except.error e => Except.error (CliError.readError e)
  | Except.ok raw =>
    let paper_text := pyStrip raw
    if paper_text = "" then Except.error CliError.emptyPaper
    else
      let messages := build_messages domain tone paper_text language
      Except.ok ⟨paper_text, messages, callModel messages⟩

/-! ### server.py: the `POST /review` endpoint -/

/-- An uploaded file as Starlette presents it: `filename` and `content_type`
may be absent, `data` is what `await file.read()` returns. -/
structure UploadedFile where
  filename : Option String
  content_type : Option String
  data : List Nat

/-- The form fields of `POST /review`.  `temperature` is forwarded verbatim to
the model call and never inspected, so it is left out of the model. -/
structure ReviewForm where
  domain : String
  language : String
  model : String
  base_url : Option String
  api_key : Option String
  tone : String
  paper_url : Option String
  file : Option UploadedFile

/-- How a `POST /review` request fails: an explicit 400 with a detail string,
or an exception escaping the handler (surfacing as a generic 500). -/
inductive ServerError
  | badRequest (detail : String)
  | unhandled (e : ReadError)
deriving DecidableEq

/-- A successful `POST /review` JSON body, plus (for specification purposes)
the paper text and messages that were passed to the Prompt Builder and Model
Caller. -/
structure ReviewOk where
  review_text : String
  meta_domain : String
  meta_language : String
  meta_model : String
  meta_base_url : Option String
  meta_paper_source : String
  meta_text_chars : Nat
  paper_text : String
  messages : List Message
deriving DecidableEq

/-- The text resolved from an uploaded file: route to the PDF extractor when
the lowered filename ends in `".pdf"` or the lowered declared content type
contains `"pdf"`; otherwise decode the bytes as UTF-8 with undecodable bytes
ignored.  A PDF parse failure escapes the handler. -/
def uploadText (parse : PdfParse) (f : UploadedFile) : Except ServerError String :=
  let filename := f.filename.getD ""
  let content_type := pyLower (f.content_type.getD "")
  if pyEndsWith (pyLower filename) ".pdf" || strContains content_type "pdf" then
    match parse f.data with
    | Except.error _ => Except.error (ServerError.unhandled ReadError.malformedPdf)
    | Except.ok pages => Except.ok (joinWithNewlines (pages.map (fun p => p.getD "")))
  else
    Except.ok (String.mk (utf8DecodeIgnoreChars f.data))

/-- The `if file: ... elif paper_url: ...` block of the endpoint: the raw
paper text together with the `paper_source` label.  When the uploaded file is
empty the handler answers 400; when both branches are skipped (unreachable
past the earlier guard) the pair stays `("", "")`. -/
def resolveSource (stdin : String) (fetch : Fetch) (parse : PdfParse) (fs : FileSystem)
    (form : ReviewForm) : Except ServerError (String × String) :=
  match form.file with
  | some f =>
    if f.data.isEmpty then Except.error (ServerError.badRequest "上传文件为空")
    else
      let filename := f.filename.getD ""
      match uploadText parse f with
      | Except.error e => Except.error e
      | Except.ok t =>
        Except.ok (t, if filename = "" then "uploaded-file" else filename)
  | none =>
    match form.paper_url with
    | some u =>
      if pyTruthyStr u then
        match read_paper stdin fetch parse fs u with
        | Except.error e => Except.error (ServerError.unhandled e)
        | Except.ok t => Except.ok (t, u)
      else Except.ok ("", "")
    | none => Except.ok ("", "")

/-- Embeds the `review` endpoint of `server.py`: validate `api_key` and the
presence of a source, resolve the paper text from the uploaded file (taking
priority) or the URL, strip it, reject empty text, then build the messages
and call the model.  `stdin` and `fs` appear because `read_paper` on a
`paper_url` that is not an http/https URL falls through to the local-file
branches of the Source Reader. -/
def review (stdin : String) (fetch : Fetch) (parse : PdfParse) (fs : FileSystem)
    (form : ReviewForm) (callModel : List Message → String) :
    Except ServerError ReviewOk :=
  if !pyTruthyOpt form.api_key then Except.error (ServerError.badRequest "缺少 api_key")
  else if form.file.isNone && !pyTruthyOpt form.paper_url then
    Except.error (ServerError.badRequest "需要提供文件或论文 URL")
  else
    match resolveSource stdin fetch parse fs form with
    | Except.error e => Except.error e
    | Except.ok (raw, src) =>
      let paper_text := pyStrip raw
      if paper_text = "" then
        Except.error (ServerError.badRequest "论文内容为空，检查文件或 URL 是否有效")
      else
        let messages := build_messages form.domain form.tone paper_text form.language
        Except.ok
          { review_text := callModel messages
            meta_domain := form.domain
            meta_language := form.language
            meta_model := form.model
            meta_base_url := form.base_url
            meta_paper_source := src
            meta_text_chars := paper_text.length
            paper_text := paper_text
            messages := messages }

/-! ### Helper lemmas -/

theorem str_data_append (a b : String) : (a ++ b).data = a.data ++ b.data := rfl

theorem str_append_assoc (a b c : String) : (a ++ b) ++ c = a ++ (b ++ c) := by
  rcases a with ⟨as⟩; rcases b with ⟨bs⟩; rcases c with ⟨cs⟩
  show String.mk ((as ++ bs) ++ cs) = String.mk (as ++ (bs ++ cs))
  rw [List.append_assoc]

theorem str_append_empty (a : String) : a ++ "" = a := by
  rcases a with ⟨as⟩
  show String.mk (as ++ []) = String.mk as
  rw [List.append_nil]

theorem countNl_append (a b : String) : countNl (a ++ b) = countNl a + countNl b := by
  simp [countNl, str_data_append, List.count_append]

theorem countNl_joinWithNewlines :
    ∀ ps : List String, ps ≠ [] → (∀ s ∈ ps, countNl s = 0) →
      countNl (joinWithNewlines ps) = ps.length - 1
  | [], h, _ => absurd rfl h
  | [s], _, h0 => by
    simpa [joinWithNewlines] using h0 s (by simp)
  | s :: t :: rest, _, h0 => by
    have ih := countNl_joinWithNewlines (t :: rest) (by simp)
      (fun x hx => h0 x (List.mem_cons_of_mem _ hx))
    have hs : countNl s = 0 := h0 s (by simp)
    have hn : countNl "\n" = 1 := by decide
    simp only [joinWithNewlines, countNl_append, ih, hs, hn, List.length_cons]
    omega

theorem joinWithNewlines_replicate :
    ∀ n : Nat, joinWithNewlines (List.replicate n "") = String.mk (List.replicate (n - 1) '\n')
  | 0 => rfl
  | 1 => rfl
  | n + 2 => by
    have ih := joinWithNewlines_replicate (n + 1)
    show joinWithNewlines ("" :: "" :: List.replicate n "") = _
    show "" ++ ("\n" ++ joinWithNewlines ("" :: List.replicate n "")) = _
    rw [show ("" :: List.replicate n "") = List.replicate (n + 1) "" from rfl, ih]
    show String.mk ('\n' :: List.replicate n '\n') = _
    rw [← List.replicate_succ]
    rfl

/-! ### Claim theorems -/

/-- Observation used to settle which template the Prompt Builder selected: the
Chinese template (and only the Chinese template) starts with `"请用中文"`. -/
def usesChineseTemplate (msgs : List Message) : Bool :=
  match msgs with
  | [_, u] => listStarts "请用中文".data u.content.data
  | _ => false

/-- C2: for every domain, tone, language and paper text, `build_messages`
returns exactly two messages, the system-role one first and the user-role one
second, and the user content contains the full paper text literally (it is a
suffix: some prefix followed by the untouched `paper_text` followed by the
empty remainder). -/
theorem build_messages_two_messages (domain tone paper_text language : String) :
    ∃ sysContent userContent pre suf,
      build_messages domain tone paper_text language =
        [⟨"system", sysContent⟩, ⟨"user", userContent⟩] ∧
      userContent = pre ++ (paper_text ++ suf) := by
  by_cases h : pyStartsWith (pyLower language) "zh" = true
  · refine ⟨systemMsg domain tone, zhTemplate domain paper_text,
      zhTemplateHead ++ (domain ++ zhTemplateMid), "", ?_, ?_⟩
    · simp [build_messages, h]
    · rw [str_append_empty, zhTemplate, str_append_assoc, str_append_assoc]
  · refine ⟨systemMsg domain tone, enTemplate domain paper_text,
      enTemplateHead ++ (domain ++ enTemplateMid), "", ?_, ?_⟩
    · simp [build_messages, h]
    · rw [str_append_empty, enTemplate, str_append_assoc, str_append_assoc]

/-- C3: the Prompt Builder selects the Chinese template exactly when the
language, lowercased, starts with `"zh"`; the boundary cases of the claim are
spelled out as instances. -/
theorem language_selects_template (domain tone paper_text language : String) :
    usesChineseTemplate (build_messages domain tone paper_text language) =
      pyStartsWith (pyLower language) "zh" ∧
    usesChineseTemplate (build_messages domain tone paper_text "zh") = true ∧
    usesChineseTemplate (build_messages domain tone paper_text "zh-CN") = true ∧
    usesChineseTemplate (build_messages domain tone paper_text "zh_TW") = true ∧
    usesChineseTemplate (build_messages domain tone paper_text "ZH") = true ∧
    usesChineseTemplate (build_messages domain tone paper_text "en-US") = false ∧
    usesChineseTemplate (build_messages domain tone paper_text "") = false ∧
    usesChineseTemplate (build_messages domain tone paper_text "fr") = false := by
  have key : ∀ l : String,
      usesChineseTemplate (build_messages domain tone paper_text l) =
        pyStartsWith (pyLower l) "zh" := by
    intro l
    by_cases h : pyStartsWith (pyLower l) "zh" = true
    · rw [h]
      simp only [build_messages, h, if_true]
      rfl
    · rw [Bool.not_eq_true] at h
      rw [h]
      simp only [build_messages, h, Bool.false_eq_true, if_false]
      rfl
  refine ⟨key language, ?_, ?_, ?_, ?_, ?_, ?_, ?_⟩ <;>
    rw [key] <;> decide

/-- C4: the PDF Extractor fails (with `MalformedPdfError`) exactly when the
bytes do not parse as a PDF; on an N-page parse it returns the per-page texts
(`None` contributing `""`) joined in page order, which has exactly N-1
newline separators whenever the page texts themselves contain none; an
all-blank N-page document yields the string of N-1 newlines. -/
theorem pdf_extractor_pages (parse : PdfParse) (data : List Nat) :
    (∀ e, parse data = Except.error e →
      read_pdf_bytes parse data = Except.error ReadError.malformedPdf) ∧
    (∀ pages, parse data = Except.ok pages →
      read_pdf_bytes parse data =
        Except.ok (joinWithNewlines (pages.map (fun p => p.getD ""))) ∧
      (pages ≠ [] → (∀ p ∈ pages, countNl (p.getD "") = 0) →
        countNl (joinWithNewlines (pages.map (fun p => p.getD ""))) = pages.length - 1) ∧
      (pages.map (fun p => p.getD "") = List.replicate pages.length "" →
        read_pdf_bytes parse data =
          Except.ok (String.mk (List.replicate (pages.length - 1) '\n')))) := by
  constructor
  · intro e h
    simp [read_pdf_bytes, h]
  · intro pages h
    refine ⟨by simp [read_pdf_bytes, h], ?_, ?_⟩
    · intro hne h0
      have hlen : (pages.map (fun p => p.getD "")).length = pages.length := by
        simp
      rw [← hlen]
      apply countNl_joinWithNewlines
      · simpa using hne
      · intro s hs
        rcases List.mem_map.mp hs with ⟨p, hp, rfl⟩
        exact h0 p hp
    · intro hrep
      simp only [read_pdf_bytes, h, hrep, joinWithNewlines_replicate]

/-- Witness for `pdf_extractor_pages` at concrete inputs: a two-page document
with texts `"Intro"` and `"Results"` joins to `"Intro\nResults"` with one
newline separator, and an unparsable byte sequence fails. -/
theorem pdf_extractor_pages_witness :
    read_pdf_bytes (fun _ => Except.ok [some "Intro", some "Results"]) [1] =
      Except.ok "Intro\nResults" ∧
    countNl "Intro\nResults" = 1 ∧
    read_pdf_bytes (fun _ => Except.error ()) [1] = Except.error ReadError.malformedPdf := by
  have h := (pdf_extractor_pages (fun _ => Except.ok [some "Intro", some "Results"]) [1]).2
    [some "Intro", some "Results"] rfl
  have herr := (pdf_extractor_pages (fun _ => Except.error ()) [1]).1 () rfl
  exact ⟨h.1.trans (by rfl), h.2.1 (by decide) (by decide), herr⟩

/-- C1 (amended): for every http/https URL source the Source Reader performs
the GET with timeout 30 (the result depends on the fetch environment only
through `fetch url 30`); it fails with `FetchError` exactly on a 4xx or 5xx
status; on any other status it routes the raw response bytes through the PDF
Extractor if and only if the content-type header, lowercased, contains
`"pdf"` or the full URL string, lowercased, ends in `".pdf"` (either signal
alone suffices), and otherwise returns the response body text. -/
theorem url_reader_routing (fetch : Fetch) (parse : PdfParse) (url : String) :
    (400 ≤ (fetch url 30).status ∧ (fetch url 30).status < 600 →
      readFromUrl fetch parse url =
        Except.error (ReadError.fetchError (fetch url 30).status)) ∧
    (¬(400 ≤ (fetch url 30).status ∧ (fetch url 30).status < 600) →
      ((strContains (pyLower (fetch url 30).contentType) "pdf" ||
          pyEndsWith (pyLower url) ".pdf") = true →
        readFromUrl fetch parse url = read_pdf_bytes parse (fetch url 30).content) ∧
      ((strContains (pyLower (fetch url 30).contentType) "pdf" ||
          pyEndsWith (pyLower url) ".pdf") = false →
        readFromUrl fetch parse url = Except.ok (fetch url 30).text)) := by
  refine ⟨fun h => ?_, fun h => ⟨fun hr => ?_, fun hr => ?_⟩⟩
  · simp [readFromUrl, h]
  · simp [readFromUrl, h, hr]
  · simp [readFromUrl, h, hr]

/-- Witness for `url_reader_routing` at concrete inputs: a 404 status fails, a
200 PDF content type routes to the extractor, a 200 HTML response is returned
as text. -/
theorem url_reader_routing_witness :
    readFromUrl (fun _ _ => ⟨404, "text/html", [], "not found"⟩)
      (fun _ => Except.error ()) "http://example.com/x" =
        Except.error (ReadError.fetchError 404) ∧
    readFromUrl (fun _ _ => ⟨200, "application/PDF", [1], ""⟩)
      (fun _ => Except.ok [some "P"]) "http://example.com/x" = Except.ok "P" ∧
    readFromUrl (fun _ _ => ⟨200, "text/html", [], "page body"⟩)
      (fun _ => Except.error ()) "http://example.com/x" = Except.ok "page body" := by
  refine ⟨(url_reader_routing (fun _ _ => ⟨404, "text/html", [], "not found"⟩)
      (fun _ => Except.error ()) "http://example.com/x").1 (by decide), ?_, ?_⟩
  · exact (((url_reader_routing (fun _ _ => ⟨200, "application/PDF", [1], ""⟩)
      (fun _ => Except.ok [some "P"]) "http://example.com/x").2 (by decide)).1
        (by decide)).trans (by rfl)
  · exact (((url_reader_routing (fun _ _ => ⟨200, "text/html", [], "page body"⟩)
      (fun _ => Except.error ()) "http://example.com/x").2 (by decide)).2
        (by decide))

/-- Counterexample to C1 as stated.  First, `requests.raise_for_status` only
raises on 4xx/5xx, so a non-2xx status such as 304 does not fail: the reader
returns the body as text.  Second, the code tests the suffix of the whole URL
string, not of the URL's path: for `"http://example.com/a.pdf?x=1"` the path
is `"/a.pdf"` (which ends in `".pdf"`), the content type carries no pdf
signal, and yet the reader returns the body text instead of routing through
the PDF Extractor (which would have produced `"PDFTEXT"`). -/
theorem url_reader_claim_counterexample :
    (¬(200 ≤ 304 ∧ 304 < 300) ∧
      readFromUrl (fun _ _ => ⟨304, "text/html", [], "OK"⟩) (fun _ => Except.error ())
        "http://example.com/page" = Except.ok "OK") ∧
    (urlPath "http://example.com/a.pdf?x=1" = "/a.pdf" ∧
      pyEndsWith (pyLower (urlPath "http://example.com/a.pdf?x=1")) ".pdf" = true ∧
      strContains (pyLower "text/html") "pdf" = false ∧
      readFromUrl (fun _ _ => ⟨200, "text/html", [80], "BODY"⟩)
        (fun _ => Except.ok [some "PDFTEXT"]) "http://example.com/a.pdf?x=1" =
          Except.ok "BODY" ∧
      read_pdf_bytes (fun _ => Except.ok [some "PDFTEXT"]) [80] = Except.ok "PDFTEXT" ∧
      ("BODY" : String) ≠ "PDFTEXT") := by
  refine ⟨⟨by decide, by rfl⟩, by decide, by decide, by decide, by rfl, by rfl, by decide⟩

/-- C5 (amended): the Source Reader dispatches in a fixed priority order —
the sentinel `"-"` returns all of standard input; otherwise an `http`/`https`
URL scheme is fetched; otherwise a name ending in `".pdf"`
(case-insensitively) goes to the PDF Extractor; otherwise the path is read as
a UTF-8 text file and the decoded content is returned after CPython's
universal-newline translation (and no other modification — in particular the
Reader itself does not trim). -/
theorem read_paper_dispatch (stdin : String) (fetch : Fetch) (parse : PdfParse)
    (fs : FileSystem) (source : String) :
    (source = "-" → read_paper stdin fetch parse fs source = Except.ok stdin) ∧
    (source ≠ "-" → (urlScheme source = "http" ∨ urlScheme source = "https") →
      read_paper stdin fetch parse fs source = readFromUrl fetch parse source) ∧
    (source ≠ "-" → ¬(urlScheme source = "http" ∨ urlScheme source = "https") →
      pyEndsWith (pyLower source) ".pdf" = true →
      read_paper stdin fetch parse fs source = readPdfPath parse fs source) ∧
    (source ≠ "-" → ¬(urlScheme source = "http" ∨ urlScheme source = "https") →
      pyEndsWith (pyLower source) ".pdf" = false →
      ∀ bytes cs, fs source = some bytes → utf8Decode? bytes = some cs →
        read_paper stdin fetch parse fs source =
          Except.ok (String.mk (univNewlines cs))) := by
  refine ⟨fun h => ?_, fun h hu => ?_, fun h hu hp => ?_, fun h hu hp bytes cs hb hd => ?_⟩
  · simp [read_paper, h]
  · simp [read_paper, h, hu]
  · simp [read_paper, h, hu, hp]
  · simp [read_paper, readTextFile, h, hu, hp, hb, hd]

/-- Witness for `read_paper_dispatch` at concrete inputs: each of the four
branches is exercised once. -/
theorem read_paper_dispatch_witness :
    read_paper "the stdin text" (fun _ _ => ⟨200, "", [], ""⟩) (fun _ => Except.error ())
      (fun _ => none) "-" = Except.ok "the stdin text" ∧
    read_paper "" (fun _ _ => ⟨200, "text/html", [], "fetched"⟩) (fun _ => Except.error ())
      (fun _ => none) "http://example.com/x" = Except.ok "fetched" ∧
    read_paper "" (fun _ _ => ⟨200, "", [], ""⟩) (fun _ => Except.ok [some "P"])
      (fun _ => some [1]) "Paper.PDF" = Except.ok "P" ∧
    read_paper "" (fun _ _ => ⟨200, "", [], ""⟩) (fun _ => Except.error ())
      (fun _ => some [104, 105]) "a.txt" = Except.ok "hi" := by
  refine ⟨?_, ?_, ?_, ?_⟩
  · exact (read_paper_dispatch "the stdin text" (fun _ _ => ⟨200, "", [], ""⟩)
      (fun _ => Except.error ()) (fun _ => none) "-").1 rfl
  · exact ((read_paper_dispatch "" (fun _ _ => ⟨200, "text/html", [], "fetched"⟩)
      (fun _ => Except.error ()) (fun _ => none) "http://example.com/x").2.1
        (by decide) (by decide)).trans (by rfl)
  · exact ((read_paper_dispatch "" (fun _ _ => ⟨200, "", [], ""⟩)
      (fun _ => Except.ok [some "P"]) (fun _ => some [1]) "Paper.PDF").2.2.1
        (by decide) (by decide) (by decide)).trans (by rfl)
  · exact ((read_paper_dispatch "" (fun _ _ => ⟨200, "", [], ""⟩)
      (fun _ => Except.error ()) (fun _ => some [104, 105]) "a.txt").2.2.2
        (by decide) (by decide) (by decide) [104, 105] ['h', 'i'] rfl (by decide)).trans
          (by rfl)

/-- Counterexample to C5 as stated: reading a text file is not byte-exact.
The file `"notes.txt"` holds the valid UTF-8 bytes of `"a\r\nb"`, but CPython
text mode applies universal-newline translation, so the Source Reader returns
`"a\nb"`, not the file's content `"a\r\nb"`. -/
theorem read_paper_newline_counterexample :
    utf8Decode? [97, 13, 10, 98] = some "a\r\nb".data ∧
    read_paper "" (fun _ _ => ⟨200, "", [], ""⟩) (fun _ => Except.error ())
      (fun p => if p = "notes.txt" then some [97, 13, 10, 98] else none) "notes.txt" =
        Except.ok "a\nb" ∧
    ("a\nb" : String) ≠ "a\r\nb" := by
  exact ⟨by decide, by rfl, by decide⟩

/-- C8: the Model Caller returns the text content of the first completion
choice, and the empty string (never an absent value) when that choice carries
no content. -/
theorem call_model_first_choice (api : ChatApi) (model : String)
    (messages : List Message) (c : Choice) (rest : List Choice)
    (h : (api model messages).choices = c :: rest) :
    call_model api model messages = Except.ok (c.message.content.getD "") ∧
    (c.message.content = none → call_model api model messages = Except.ok "") ∧
    (∀ s, c.message.content = some s → call_model api model messages = Except.ok s) := by
  refine ⟨?_, fun hn => ?_, fun s hs => ?_⟩ <;> simp [call_model, h, *]

/-- Witness for `call_model_first_choice` at concrete inputs: with two
choices, the first (content-less) choice wins and yields `""`; with a
contentful first choice its text is returned. -/
theorem call_model_first_choice_witness :
    call_model (fun _ _ => ⟨[⟨⟨none⟩⟩, ⟨⟨some "second"⟩⟩]⟩) "m" [] = Except.ok "" ∧
    call_model (fun _ _ => ⟨[⟨⟨some "the review"⟩⟩]⟩) "m" [] = Except.ok "the review" := by
  exact ⟨(call_model_first_choice (fun _ _ => ⟨[⟨⟨none⟩⟩, ⟨⟨some "second"⟩⟩]⟩) "m" []
      ⟨⟨none⟩⟩ [⟨⟨some "second"⟩⟩] rfl).2.1 rfl,
    (call_model_first_choice (fun _ _ => ⟨[⟨⟨some "the review"⟩⟩]⟩) "m" []
      ⟨⟨some "the review"⟩⟩ [] rfl).2.2 "the review" rfl⟩

/-- Shared inversion on a successful `POST /review`: the endpoint only
answers `.ok` with a non-empty stripped paper text, the messages built from
it, the model's reply, and metadata echoing the form. -/
theorem review_ok_inv (stdin : String) (fetch : Fetch) (parse : PdfParse)
    (fs : FileSystem) (form : ReviewForm) (cm : List Message → String)
    (r : ReviewOk) (h : review stdin fetch parse fs form cm = Except.ok r) :
    r.paper_text ≠ "" ∧
    r.messages = build_messages form.domain form.tone r.paper_text form.language ∧
    r.review_text = cm r.messages ∧
    r.meta_domain = form.domain ∧ r.meta_language = form.language ∧
    r.meta_model = form.model ∧ r.meta_base_url = form.base_url ∧
    r.meta_text_chars = r.paper_text.length := by
  by_cases hk : pyTruthyOpt form.api_key = true
  · simp only [review, hk, Bool.not_true, Bool.false_eq_true, if_false] at h
    by_cases hg : (form.file.isNone && !pyTruthyOpt form.paper_url) = true
    · rw [if_pos hg] at h
      cases h
    · rw [if_neg hg] at h
      split at h
      next e heq => cases h
      next raw src heq =>
        split at h
        next hs => cases h
        next hs =>
          cases h
          exact ⟨hs, rfl, rfl, rfl, rfl, rfl, rfl, rfl⟩
  · simp only [review, hk] at h
    simp at h

/-- C7: `POST /review` answers 400 when `api_key` is missing (whatever the
other fields are), 400 when neither a file nor a `paper_url` is supplied, and
400 when the uploaded file's byte payload is empty — always before any paper
ingestion or model call (the fetch environment, the filesystem, the PDF
parser and the model callback are arbitrary and unused). -/
theorem review_validation (stdin : String) (fetch : Fetch) (parse : PdfParse)
    (fs : FileSystem) (form : ReviewForm) (cm : List Message → String) :
    (form.api_key = none →
      review stdin fetch parse fs form cm =
        Except.error (ServerError.badRequest "缺少 api_key")) ∧
    (form.file = none → form.paper_url = none →
      ∃ d, review stdin fetch parse fs form cm =
        Except.error (ServerError.badRequest d)) ∧
    (∀ f, form.file = some f → f.data = [] →
      ∃ d, review stdin fetch parse fs form cm =
        Except.error (ServerError.badRequest d)) := by
  refine ⟨fun h => ?_, fun hf hu => ?_, fun f hf hd => ?_⟩
  · simp [review, h, pyTruthyOpt]
  · by_cases hk : pyTruthyOpt form.api_key = true
    · have hu' : pyTruthyOpt form.paper_url = false := by rw [hu]; rfl
      exact ⟨"需要提供文件或论文 URL", by simp [review, hk, hf, hu']⟩
    · exact ⟨"缺少 api_key", by simp [review, hk]⟩
  · by_cases hk : pyTruthyOpt form.api_key = true
    · refine ⟨"上传文件为空", ?_⟩
      simp [review, resolveSource, hk, hf, hd]
    · exact ⟨"缺少 api_key", by simp [review, hk]⟩

/-- Witness for `review_validation` at concrete forms: a form without
`api_key`, a form without file and URL, and a form with an empty upload. -/
theorem review_validation_witness :
    review "" (fun _ _ => ⟨200, "", [], ""⟩) (fun _ => Except.error ()) (fun _ => none)
      ⟨"ML", "zh", "gpt-4o-mini", none, none, "tone", some "http://x", none⟩ (fun _ => "") =
        Except.error (ServerError.badRequest "缺少 api_key") ∧
    (∃ d, review "" (fun _ _ => ⟨200, "", [], ""⟩) (fun _ => Except.error ()) (fun _ => none)
      ⟨"ML", "zh", "gpt-4o-mini", none, some "key", "tone", none, none⟩ (fun _ => "") =
        Except.error (ServerError.badRequest d)) ∧
    (∃ d, review "" (fun _ _ => ⟨200, "", [], ""⟩) (fun _ => Except.error ()) (fun _ => none)
      ⟨"ML", "zh", "gpt-4o-mini", none, some "key", "tone", none,
        some ⟨some "draft.pdf", some "application/pdf", []⟩⟩ (fun _ => "") =
        Except.error (ServerError.badRequest d)) := by
  refine ⟨?_, ?_, ?_⟩
  · exact (review_validation "" (fun _ _ => ⟨200, "", [], ""⟩) (fun _ => Except.error ())
      (fun _ => none) ⟨"ML", "zh", "gpt-4o-mini", none, none, "tone", some "http://x", none⟩
      (fun _ => "")).1 rfl
  · exact (review_validation "" (fun _ _ => ⟨200, "", [], ""⟩) (fun _ => Except.error ())
      (fun _ => none) ⟨"ML", "zh", "gpt-4o-mini", none, some "key", "tone", none, none⟩
      (fun _ => "")).2.1 rfl rfl
  · exact (review_validation "" (fun _ _ => ⟨200, "", [], ""⟩) (fun _ => Except.error ())
      (fun _ => none) ⟨"ML", "zh", "gpt-4o-mini", none, some "key", "tone", none,
        some ⟨some "draft.pdf", some "application/pdf", []⟩⟩
      (fun _ => "")).2.2 ⟨some "draft.pdf", some "application/pdf", []⟩ rfl rfl

/-- C6: in both front ends, paper text reaches the Prompt Builder and Model
Caller only stripped and non-empty.  When the resolved text strips to empty,
the CLI terminates with `SystemExit` and the endpoint answers 400, in both
cases before any model call; a successful run carries a non-empty
`paper_text` from which the messages were built. -/
theorem empty_paper_guard (stdin : String) (fetch : Fetch) (parse : PdfParse)
    (fs : FileSystem) (paper domain tone language : String)
    (cm : List Message → String) (form : ReviewForm) (raw : String) :
    (read_paper stdin fetch parse fs paper = Except.ok raw → pyStrip raw = "" →
      mainFlow stdin fetch parse fs paper domain tone language cm =
        Except.error CliError.emptyPaper) ∧
    (∀ o, mainFlow stdin fetch parse fs paper domain tone language cm = Except.ok o →
      o.paper_text ≠ "" ∧
      o.messages = build_messages domain tone o.paper_text language ∧
      o.review = cm o.messages) ∧
    (∀ f t, form.file = some f → f.data ≠ [] → pyTruthyOpt form.api_key = true →
      uploadText parse f = Except.ok t → pyStrip t = "" →
      review stdin fetch parse fs form cm =
        Except.error (ServerError.badRequest "论文内容为空，检查文件或 URL 是否有效")) ∧
    (∀ r, review stdin fetch parse fs form cm = Except.ok r →
      r.paper_text ≠ "" ∧
      r.messages = build_messages form.domain form.tone r.paper_text form.language) := by
  refine ⟨fun hr hs => ?_, fun o ho => ?_, fun f t hf hd hk hu hs => ?_, fun r hr => ?_⟩
  · simp [mainFlow, hr, hs]
  · simp only [mainFlow] at ho
    split at ho
    next e heq => cases ho
    next raw' heq =>
      split at ho
      next hs => cases ho
      next hs =>
        cases ho
        exact ⟨hs, rfl, rfl⟩
  · have hde : f.data.isEmpty = false := by simpa using hd
    simp [review, resolveSource, hk, hf, hde, hu, hs]
  · exact ⟨(review_ok_inv stdin fetch parse fs form cm r hr).1,
      (review_ok_inv stdin fetch parse fs form cm r hr).2.1⟩

/-- Witness for `empty_paper_guard` at concrete inputs: a stdin paper of pure
whitespace aborts the CLI; an uploaded text file of one blank byte gets 400
from the endpoint; a non-blank stdin paper reaches the model with the
stripped text. -/
theorem empty_paper_guard_witness :
    mainFlow "  \n " (fun _ _ => ⟨200, "", [], ""⟩) (fun _ => Except.error ())
      (fun _ => none) "-" "ML" "t" "en" (fun _ => "R") =
        Except.error CliError.emptyPaper ∧
    review "" (fun _ _ => ⟨200, "", [], ""⟩) (fun _ => Except.error ()) (fun _ => none)
      ⟨"ML", "zh", "m", none, some "key", "t", none, some ⟨some "a.txt", some "text/plain", [32]⟩⟩
      (fun _ => "R") =
        Except.error (ServerError.badRequest "论文内容为空，检查文件或 URL 是否有效") ∧
    ("hi" : String) ≠ "" := by
  refine ⟨?_, ?_, ?_⟩
  · exact (empty_paper_guard "  \n " (fun _ _ => ⟨200, "", [], ""⟩) (fun _ => Except.error ())
      (fun _ => none) "-" "ML" "t" "en" (fun _ => "R")
      ⟨"ML", "zh", "m", none, some "key", "t", none, none⟩ "  \n ").1 rfl rfl
  · exact (empty_paper_guard "" (fun _ _ => ⟨200, "", [], ""⟩) (fun _ => Except.error ())
      (fun _ => none) "-" "ML" "t" "en" (fun _ => "R")
      ⟨"ML", "zh", "m", none, some "key", "t", none, some ⟨some "a.txt", some "text/plain", [32]⟩⟩
      "").2.2.1 ⟨some "a.txt", some "text/plain", [32]⟩ " " rfl (by decide) rfl rfl rfl
  · exact ((empty_paper_guard "hi" (fun _ _ => ⟨200, "", [], ""⟩) (fun _ => Except.error ())
      (fun _ => none) "-" "ML" "t" "en" (fun _ => "R")
      ⟨"ML", "zh", "m", none, some "key", "t", none, none⟩ "hi").2.1
      ⟨"hi", build_messages "ML" "t" "hi" "en", "R"⟩ rfl).1

/-- C9: when the form carries both a non-empty uploaded file and a
`paper_url`, the uploaded file alone determines the outcome — the result is
unchanged when `paper_url` is replaced by anything else and the stdin, fetch
and filesystem environments are swapped — and on success `meta.paper_source`
is the uploaded filename, with the label `"uploaded-file"` when the filename
is empty. -/
theorem upload_overrides_url (stdin stdin' : String) (fetch fetch' : Fetch)
    (parse : PdfParse) (fs fs' : FileSystem) (form : ReviewForm) (f : UploadedFile)
    (cm : List Message → String) (url' : Option String)
    (hf : form.file = some f) (hd : f.data ≠ []) :
    review stdin fetch parse fs form cm =
      review stdin' fetch' parse fs' { form with paper_url := url' } cm ∧
    ∀ r, review stdin fetch parse fs form cm = Except.ok r →
      r.meta_paper_source =
        (if f.filename.getD "" = "" then "uploaded-file" else f.filename.getD "") := by
  constructor
  · simp [review, resolveSource, hf]
  · intro r hr
    by_cases hk : pyTruthyOpt form.api_key = true
    · have hde : f.data.isEmpty = false := by simpa using hd
      simp only [review, resolveSource, hk, Bool.not_true, Bool.false_eq_true, if_false, hf,
        Option.isNone_some, Bool.false_and, hde] at hr
      split at hr
      next e heq => cases hr
      next raw src heq =>
        split at hr
        next hs => cases hr
        next hs =>
          cases hr
          split at heq
          next e heq2 => cases heq
          next t heq2 =>
            cases heq
            rfl
    · simp only [review, hk] at hr
      simp at hr

/-- Witness for `upload_overrides_url` at concrete inputs: a form holding
both a two-page PDF named `"draft.pdf"` and a `paper_url` gives the same
result as the same form without the URL under a different environment, and
reports `meta.paper_source = "draft.pdf"`. -/
theorem upload_overrides_url_witness :
    review "" (fun _ _ => ⟨200, "", [], ""⟩) (fun _ => Except.ok [some "Intro", some "Results"])
      (fun _ => none)
      ⟨"ML", "zh", "m", none, some "key", "t", some "http://u",
        some ⟨some "draft.pdf", some "application/pdf", [9]⟩⟩ (fun _ => "R") =
      review "S" (fun _ _ => ⟨500, "", [], ""⟩) (fun _ => Except.ok [some "Intro", some "Results"])
        (fun _ => some [1])
        ⟨"ML", "zh", "m", none, some "key", "t", none,
          some ⟨some "draft.pdf", some "application/pdf", [9]⟩⟩ (fun _ => "R") ∧
    (review "" (fun _ _ => ⟨200, "", [], ""⟩) (fun _ => Except.ok [some "Intro", some "Results"])
      (fun _ => none)
      ⟨"ML", "zh", "m", none, some "key", "t", some "http://u",
        some ⟨some "draft.pdf", some "application/pdf", [9]⟩⟩ (fun _ => "R")).map
        (fun r => r.meta_paper_source) = Except.ok "draft.pdf" := by
  have h := upload_overrides_url "" "S" (fun _ _ => ⟨200, "", [], ""⟩)
    (fun _ _ => ⟨500, "", [], ""⟩) (fun _ => Except.ok [some "Intro", some "Results"])
    (fun _ => none) (fun _ => some [1])
    ⟨"ML", "zh", "m", none, some "key", "t", some "http://u",
      some ⟨some "draft.pdf", some "application/pdf", [9]⟩⟩
    ⟨some "draft.pdf", some "application/pdf", [9]⟩ (fun _ => "R") none rfl (by decide)
  have hok : review "" (fun _ _ => ⟨200, "", [], ""⟩)
      (fun _ => Except.ok [some "Intro", some "Results"]) (fun _ => none)
      ⟨"ML", "zh", "m", none, some "key", "t", some "http://u",
        some ⟨some "draft.pdf", some "application/pdf", [9]⟩⟩ (fun _ => "R") =
      Except.ok ⟨"R", "ML", "zh", "m", none, "draft.pdf", 13, "Intro\nResults",
        build_messages "ML" "t" "Intro\nResults" "zh"⟩ := by rfl
  refine ⟨h.1, ?_⟩
  have h2 := h.2 _ hok
  rw [hok, Except.map, h2]
  rfl

/-- C10: the endpoint decodes a non-PDF upload with
`bytes.decode("utf-8", errors="ignore")` — a total function, so that branch
never raises on invalid UTF-8 (no `unhandled` escape is possible) — whereas
the Source Reader's local text-file branch fails with a decode error whenever
the file bytes are not valid UTF-8. -/
theorem upload_decode_total (stdin : String) (fetch : Fetch) (parse : PdfParse)
    (fs : FileSystem) (form : ReviewForm) (f : UploadedFile)
    (cm : List Message → String) (path : String) :
    (pyEndsWith (pyLower (f.filename.getD "")) ".pdf" = false →
      strContains (pyLower (f.content_type.getD "")) "pdf" = false →
      uploadText parse f = Except.ok (String.mk (utf8DecodeIgnoreChars f.data))) ∧
    (form.file = some f → f.data ≠ [] →
      pyEndsWith (pyLower (f.filename.getD "")) ".pdf" = false →
      strContains (pyLower (f.content_type.getD "")) "pdf" = false →
      ∀ e, review stdin fetch parse fs form cm ≠ Except.error (ServerError.unhandled e)) ∧
    (∀ bytes, fs path = some bytes → utf8Decode? bytes = none →
      readTextFile fs path = Except.error ReadError.unicodeDecodeError) := by
  have hupload : pyEndsWith (pyLower (f.filename.getD "")) ".pdf" = false →
      strContains (pyLower (f.content_type.getD "")) "pdf" = false →
      uploadText parse f = Except.ok (String.mk (utf8DecodeIgnoreChars f.data)) := by
    intro h1 h2
    simp [uploadText, h1, h2]
  refine ⟨hupload, fun hf hd h1 h2 e hcontra => ?_, fun bytes hb hdn => ?_⟩
  · by_cases hk : pyTruthyOpt form.api_key = true
    · have hde : f.data.isEmpty = false := by simpa using hd
      simp only [review, resolveSource, hk, Bool.not_true, Bool.false_eq_true, if_false, hf,
        Option.isNone_some, Bool.false_and, hde, hupload h1 h2] at hcontra
      split at hcontra
      next hs => cases hcontra
      next hs => cases hcontra
    · simp only [review, hk] at hcontra
      simp at hcontra
  · simp [readTextFile, hb, hdn]

/-- Witness for `upload_decode_total` at concrete inputs: the byte sequence
`[0xFF, 0x61]` is not valid UTF-8; uploaded as `"a.txt"` it decodes leniently
to `"a"`, while the same bytes in a local text file make the Source Reader
fail with a decode error. -/
theorem upload_decode_total_witness :
    uploadText (fun _ => Except.error ()) ⟨some "a.txt", some "text/plain", [255, 97]⟩ =
      Except.ok "a" ∧
    utf8Decode? [255, 97] = none ∧
    readTextFile (fun _ => some [255, 97]) "a.txt" =
      Except.error ReadError.unicodeDecodeError := by
  have h := upload_decode_total "" (fun _ _ => ⟨200, "", [], ""⟩) (fun _ => Except.error ())
    (fun _ => some [255, 97])
    ⟨"ML", "zh", "m", none, some "key", "t", none,
      some ⟨some "a.txt", some "text/plain", [255, 97]⟩⟩
    ⟨some "a.txt", some "text/plain", [255, 97]⟩ (fun _ => "R") "a.txt"
  exact ⟨(h.1 (by decide) (by decide)).trans (by rfl), by decide,
    h.2.2 [255, 97] rfl (by decide)⟩

end ChoosePaper
